import Mathlib

set_option maxRecDepth 4000

/-
Shallow embedding of src/main.py of the RSSSummary repository.

The program is a linear pipeline: configuration loading from the
environment, RSS feed filtering by publication date (yesterday in the
Europe/Amsterdam timezone) and category tag, per-entry article fetching
and LLM summarization, and a digest email.  External collaborators
(feedparser, requests/BeautifulSoup, the OpenAI client, smtplib) are
modelled as oracle functions passed to the pipeline; the pipeline itself
is embedded as pure functions that also record the network calls they
make and the lines they print.
-/

/-! ## Calendar arithmetic

The source converts feed timestamps (UTC) to the Europe/Amsterdam
timezone via pytz.  We embed proleptic-Gregorian day arithmetic
(the standard civil-from-days / days-from-civil algorithms) and the
permanent EU daylight-saving rule used by the tz database for
Europe/Amsterdam from 1996 onward: UTC+1, switching to UTC+2 between
01:00 UTC on the last Sunday of March and 01:00 UTC on the last Sunday
of October.  All timestamps relevant to the claims are modern. -/

/-- A civil calendar date. -/
structure Date where
  year : Int
  month : Nat
  day : Nat
deriving DecidableEq, Repr

/-- Days since 1970-01-01 of a civil date (proleptic Gregorian). -/
def daysFromCivil (y : Int) (m d : Int) : Int :=
  let y := if m ≤ 2 then y - 1 else y
  let era := Int.fdiv y 400
  let yoe := y - era * 400
  let mp := if m > 2 then m - 3 else m + 9
  let doy := Int.fdiv (153 * mp + 2) 5 + d - 1
  let doe := yoe * 365 + Int.fdiv yoe 4 - Int.fdiv yoe 100 + doy
  era * 146097 + doe - 719468

/-- Civil date of a count of days since 1970-01-01. -/
def civilFromDays (z : Int) : Date :=
  let z := z + 719468
  let era := Int.fdiv z 146097
  let doe := z - era * 146097
  let yoe := Int.fdiv (doe - Int.fdiv doe 1460 + Int.fdiv doe 36524 - Int.fdiv doe 146096) 365
  let y := yoe + era * 400
  let doy := doe - (365 * yoe + Int.fdiv yoe 4 - Int.fdiv yoe 100)
  let mp := Int.fdiv (5 * doy + 2) 153
  let d := doy - Int.fdiv (153 * mp + 2) 5 + 1
  let m := if mp < 10 then mp + 3 else mp - 9
  { year := y + (if m ≤ 2 then 1 else 0), month := m.toNat, day := d.toNat }

/-- Days since epoch of a `Date`. -/
def daysOfDate (d : Date) : Int :=
  daysFromCivil d.year d.month d.day

/-- The previous calendar date. -/
def prevDate (d : Date) : Date :=
  civilFromDays (daysOfDate d - 1)

/-- A wall-clock timestamp as produced by feedparser's published_parsed
(year, month, day, hour, minute, second); the source interprets it as UTC. -/
structure DateTime where
  year : Int
  month : Nat
  day : Nat
  hour : Nat
  minute : Nat
  second : Nat
deriving DecidableEq, Repr

/-- Seconds since the Unix epoch of a UTC wall-clock timestamp. -/
def epochOfUTC (dt : DateTime) : Int :=
  daysFromCivil dt.year dt.month dt.day * 86400
    + 3600 * (dt.hour : Int) + 60 * (dt.minute : Int) + (dt.second : Int)

/-- Day of week of a day count since epoch, 0 = Sunday (1970-01-01 was a Thursday). -/
def dayOfWeek (z : Int) : Int :=
  Int.emod (z + 4) 7

/-- Day count of the last Sunday on or before the given day count. -/
def lastSundayOnOrBefore (z : Int) : Int :=
  z - dayOfWeek z

/-- Epoch second at which daylight-saving time starts in year `y`
(01:00 UTC on the last Sunday of March). -/
def dstStartAms (y : Int) : Int :=
  lastSundayOnOrBefore (daysFromCivil y 3 31) * 86400 + 3600

/-- Epoch second at which daylight-saving time ends in year `y`
(01:00 UTC on the last Sunday of October). -/
def dstEndAms (y : Int) : Int :=
  lastSundayOnOrBefore (daysFromCivil y 10 31) * 86400 + 3600

/-- Whether Europe/Amsterdam observes daylight-saving time at UTC instant `t`. -/
def isDstAms (t : Int) : Bool :=
  let y := (civilFromDays (Int.fdiv t 86400)).year
  decide (dstStartAms y ≤ t ∧ t < dstEndAms y)

/-- UTC offset of Europe/Amsterdam, in seconds, at UTC instant `t`. -/
def amsOffset (t : Int) : Int :=
  if isDstAms t then 7200 else 3600

/-- Calendar date in Europe/Amsterdam of UTC instant `t`. -/
def amsDateOfEpoch (t : Int) : Date :=
  civilFromDays (Int.fdiv (t + amsOffset t) 86400)

/-- Calendar date in UTC of UTC instant `t`. -/
def utcDateOfEpoch (t : Int) : Date :=
  civilFromDays (Int.fdiv t 86400)

/-- The date the filter selects: now converted to Amsterdam time, minus one
day, as computed by `(now_ams - timedelta(days=1)).date()` (wall-clock
subtraction, so exactly the previous calendar date). -/
def yesterdayAms (now : Int) : Date :=
  prevDate (amsDateOfEpoch now)

/-! ## Data model

FeedEntry mirrors the fields of a feedparser entry that main.py reads:
title, link, published (the original string), published_parsed (absent or
unparseable modelled as none) and the list of category tags. -/

deriving instance DecidableEq for Except

namespace RSS

/-- One category tag of a feed entry (feedparser tag object, field term). -/
structure FeedTag where
  term : String
deriving DecidableEq, Repr

/-- One feed entry as read by main.py. -/
structure FeedEntry where
  title : String
  link : String
  published : String
  published_parsed : Option DateTime
  tags : List FeedTag
deriving DecidableEq, Repr

/-- One element of the complete_summary list built in main. -/
structure ArticleSummary where
  title : String
  published : String
  link : String
  summary : String
deriving DecidableEq, Repr

/-- A Python exception aborting the run:
attributeError models the tags[0] access on an entry without tags,
unboundLocal models send_email(complete_summary) with the loop never run,
valueError models int(smtp_port) on a non-numeric string. -/
inductive PyError where
  | attributeError
  | unboundLocal
  | valueError
deriving DecidableEq, Repr

/-- A request to the chat-completions endpoint as composed in main. -/
structure LLMRequest where
  model : String
  systemContent : String
  userContent : String
  max_tokens : Nat
  temperature : ℚ
deriving DecidableEq, Repr

/-- The composed email message (set_content body, Subject, From, To). -/
structure EmailMsg where
  body : String
  subject : String
  sender : String
  recipient : String
deriving DecidableEq, Repr

/-- One network call made by the pipeline, in order. -/
inductive NetCall where
  | feedFetch (url : String)
  | articleFetch (url : String)
  | modelCall (req : LLMRequest)
  | mailSend (msg : EmailMsg)
deriving DecidableEq, Repr

/-- The process environment: os.getenv returns none when a variable is
unset.  Python truthiness also rejects the empty string. -/
structure Env where
  openai_api_key : Option String
  rss_feed_url : Option String
  rss_feed_summary_length : Option String
  smtp_server : Option String
  smtp_port : Option String
  smtp_user : Option String
  smtp_password : Option String
  sender_email : Option String
  recipient_email : Option String
deriving DecidableEq, Repr

/-- Python truthiness of an optional environment string:
None and the empty string are falsy. -/
def truthy : Option String → Bool
  | none => false
  | some s => decide (s ≠ "")

/-! ## read_rss_feed -/

/-- The date-and-tag predicate of read_rss_feed: the entry has a parsed
publish timestamp whose date, converted from UTC to Europe/Amsterdam,
equals the reference yesterday, and its first tag term is not the
literal string Software.  (An entry satisfying the date condition but
having no tags makes the source raise instead; see filterEntries.) -/
def passesFilter (yd : Date) (e : FeedEntry) : Bool :=
  match e.published_parsed with
  | none => false
  | some dt =>
    decide (amsDateOfEpoch (epochOfUTC dt) = yd) &&
      match e.tags with
      | [] => false
      | t :: _ => decide (t.term ≠ "Software")

/-- The filtering loop of read_rss_feed.  Entries without a parsed
publish timestamp are skipped; for an entry whose converted date equals
yesterday the source reads entry.tags[0].term, which raises when the
entry has no tags (modelled as attributeError). -/
def filterEntries (yd : Date) : List FeedEntry → Except PyError (List FeedEntry)
  | [] => .ok []
  | e :: es =>
    match e.published_parsed with
    | none => filterEntries yd es
    | some dt =>
      if amsDateOfEpoch (epochOfUTC dt) = yd then
        match e.tags with
        | [] => .error .attributeError
        | t :: _ =>
          if t.term = "Software" then
            filterEntries yd es
          else
            match filterEntries yd es with
            | .error err => .error err
            | .ok rest => .ok (e :: rest)
      else filterEntries yd es

/-- read_rss_feed: parse the feed (the parsed entries are supplied by the
feed oracle in main) and keep the entries published yesterday in
Amsterdam time whose first tag is not Software. -/
def read_rss_feed (now : Int) (entries : List FeedEntry) : Except PyError (List FeedEntry) :=
  filterEntries (yesterdayAms now) entries

/-! ## Configuration and messages -/

def apiKeyMsg : String :=
  "Please set OPENAI_API_KEY in your .env file."

def feedCfgMsg : String :=
  "Please set RSS_FEED_URL and RSS_FEED_SUMMARY_LENGTH in your .env file."

def lenWarnMsg : String :=
  "Invalid summary length. Please set RSS_FEED_SUMMARY_LENGTH to Short, Medium, or Long in your .env file."

def mailCfgMsg : String :=
  "Please set SMTP_SERVER, SMTP_PORT, SMTP_USER, SMTP_SENDER, SMTP_PASSWORD, and RECIPIENT_EMAIL in your .env file."

def mailSubject : String :=
  "Summary of Tweaker RSS Feed Articles"

/-- load_feeds_info: returns the feed URL and summary-length preset, or
none (with the printed message) when either is unset or empty. -/
def load_feeds_info (env : Env) : Option (String × String) × List String :=
  if truthy env.rss_feed_url && truthy env.rss_feed_summary_length then
    (some (env.rss_feed_url.getD "", env.rss_feed_summary_length.getD ""), [])
  else
    (none, [feedCfgMsg])

/-- get_summary_length: Short = 500, Medium = 1000, Long = 1500, anything
else 1000 with a printed warning.  Returns the length and the printed lines. -/
def get_summary_length (rss_feed_summary_length : String) : Nat × List String :=
  if rss_feed_summary_length = "Short" then (500, [])
  else if rss_feed_summary_length = "Medium" then (1000, [])
  else if rss_feed_summary_length = "Long" then (1500, [])
  else (1000, [lenWarnMsg])

/-! ## send_email -/

/-- ASCII whitespace, as stripped by str.strip and accepted around int()
input: space, tab, newline, carriage return, vertical tab, form feed. -/
def isPyWS (c : Char) : Bool :=
  c = ' ' || c = '\t' || c = '\n' || c = '\r' || c = '\x0b' || c = '\x0c'

def dropLeadingWS : List Char → List Char
  | [] => []
  | c :: cs => if isPyWS c then dropLeadingWS cs else c :: cs

/-- Python str.strip(): remove leading and trailing whitespace. -/
def pyStrip (s : String) : String :=
  ⟨(dropLeadingWS (dropLeadingWS s.data).reverse).reverse⟩

/-- Accumulate decimal digits; none on any non-digit character. -/
def digitsToNat : List Char → Nat → Option Nat
  | [], acc => some acc
  | c :: cs, acc =>
    if '0' ≤ c ∧ c ≤ '9' then digitsToNat cs (acc * 10 + (c.toNat - 48))
    else none

/-- A nonempty all-digit character list as a number, else none. -/
def parseDecimal : List Char → Option Nat
  | [] => none
  | cs => digitsToNat cs 0

/-- Python int() applied to a string: surrounding whitespace stripped, an
optional sign, then at least one decimal digit.  (Underscore separators
and non-ASCII digits, which CPython also accepts, are not modelled; no
claim depends on them.)  none models a raised ValueError. -/
def pyInt (s : String) : Option Int :=
  match (pyStrip s).data with
  | '-' :: rest => (parseDecimal rest).map (fun n => -(n : Int))
  | '+' :: rest => (parseDecimal rest).map (fun n => (n : Int))
  | cs => (parseDecimal cs).map (fun n => (n : Int))

/-- The separator line closing each block: 57 equals-sign characters and
a newline, exactly the literal in the source. -/
def separatorLine : String :=
  String.mk (List.replicate 57 '=') ++ "\n"

/-- The HTML block send_email appends to the body for one summary. -/
def formatItem (it : ArticleSummary) : String :=
  "<h2>" ++ it.title ++ "</h2>\n" ++
  "<h3>Published on: " ++ it.published ++ "</h3>\n" ++
  "<h3>Summary:</h3>\n" ++ it.summary ++ "<p>&nbsp;</p>\n" ++
  "<a href=\"" ++ it.link ++ "\">Read more</a><p>&nbsp;</p>\n\n" ++
  separatorLine

/-- The body accumulated over the complete_summary list, in order. -/
def emailBody (items : List ArticleSummary) : String :=
  String.join (items.map formatItem)

/-- The all([...]) presence check of send_email, in source order:
server, port, user, password, recipient, sender. -/
def mailCfgOk (env : Env) : Bool :=
  truthy env.smtp_server && truthy env.smtp_port && truthy env.smtp_user &&
    truthy env.smtp_password && truthy env.recipient_email && truthy env.sender_email

/-- Result of send_email: printed lines, the composed message if
composition was reached, the network calls made, and either a raised
exception or the optional sent message (none on the early return). -/
structure SendResult where
  printed : List String
  composed : Option EmailMsg
  calls : List NetCall
  result : Except PyError (Option EmailMsg)
deriving DecidableEq, Repr

/-- send_email: check presence of the six mail settings (early return
with a message when incomplete), compose the body and message, then
convert the port with int() — raising on a non-numeric string — and
send over SMTP_SSL. -/
def send_email (env : Env) (complete_summary : List ArticleSummary) : SendResult :=
  if mailCfgOk env then
    let body := emailBody complete_summary
    let msg : EmailMsg :=
      { body := body, subject := mailSubject,
        sender := env.sender_email.getD "", recipient := env.recipient_email.getD "" }
    match pyInt (env.smtp_port.getD "") with
    | none =>
      { printed := [], composed := some msg, calls := [], result := .error .valueError }
    | some _ =>
      { printed := [], composed := some msg, calls := [.mailSend msg],
        result := .ok (some msg) }
  else
    { printed := [mailCfgMsg], composed := none, calls := [], result := .ok none }

/-! ## main -/

/-- The chat-completions request main composes for one article text. -/
def mkRequest (article_content : String) (summary_length : Nat) : LLMRequest :=
  { model := "gpt-3.5-turbo",
    systemContent := "You are a helpful assistant that summarizes articles.",
    userContent := "Summarize the following article:\n\n" ++ article_content,
    max_tokens := summary_length,
    temperature := 7 / 10 }

/-- One iteration of the loop in main: fetch the article, call the model,
strip the returned text (response...content.strip(), modelled by
pyStrip), and build the complete_summary element.  Returns the element
and the network calls made, in order. -/
def summarizeEntry (fetchArticle : String → String) (llm : LLMRequest → String)
    (summary_length : Nat) (e : FeedEntry) : ArticleSummary × List NetCall :=
  let article_content := fetchArticle e.link
  let req := mkRequest article_content summary_length
  ({ title := e.title, published := e.published, link := e.link,
     summary := pyStrip (llm req) },
   [.articleFetch e.link, .modelCall req])

/-- The complete_summary list built by the loop, in feed order. -/
def pipelineSummaries (fetchArticle : String → String) (llm : LLMRequest → String)
    (summary_length : Nat) (feed : List FeedEntry) : List ArticleSummary :=
  feed.map (fun e => (summarizeEntry fetchArticle llm summary_length e).1)

/-- The network calls made by the loop, in order. -/
def pipelineCalls (fetchArticle : String → String) (llm : LLMRequest → String)
    (summary_length : Nat) (feed : List FeedEntry) : List NetCall :=
  (feed.map (fun e => (summarizeEntry fetchArticle llm summary_length e).2)).flatten

/-- Outcome of a run of main: printed lines, network calls in order, and
either a raised exception or the optional sent message (none when main
returned early without sending). -/
structure MainOut where
  printed : List String
  calls : List NetCall
  result : Except PyError (Option EmailMsg)
deriving DecidableEq, Repr

/-- main: check the API key, load feed configuration, fetch and filter
the feed, summarize each entry, and send the digest.  When the filtered
feed is empty the loop never runs, so complete_summary is never created
and the call send_email(complete_summary) raises UnboundLocalError. -/
def main (env : Env) (fetchFeed : String → List FeedEntry)
    (fetchArticle : String → String) (llm : LLMRequest → String)
    (now : Int) : MainOut :=
  if truthy env.openai_api_key then
    match load_feeds_info env with
    | (none, msgs) => { printed := msgs, calls := [], result := .ok none }
    | (some (url, lenStr), msgs) =>
      let entries := fetchFeed url
      match read_rss_feed now entries with
      | .error e => { printed := msgs, calls := [.feedFetch url], result := .error e }
      | .ok feed =>
        let sl := get_summary_length lenStr
        match feed with
        | [] =>
          { printed := msgs ++ sl.2, calls := [.feedFetch url],
            result := .error .unboundLocal }
        | _ :: _ =>
          let sr := send_email env (pipelineSummaries fetchArticle llm sl.1 feed)
          { printed := msgs ++ sl.2 ++ sr.printed,
            calls := .feedFetch url :: (pipelineCalls fetchArticle llm sl.1 feed ++ sr.calls),
            result := sr.result }
  else
    { printed := [apiKeyMsg], calls := [], result := .ok none }

/-! ## Concrete test fixtures -/

/-- 23:30 UTC on 2023-12-31; in Amsterdam this is 00:30 on 2024-01-01. -/
def dtNYE : DateTime := ⟨2023, 12, 31, 23, 30, 0⟩

/-- Noon UTC on 2024-01-02; the Amsterdam date is 2024-01-02, so the
filter reference yesterday is 2024-01-01. -/
def nowJan2 : Int := epochOfUTC ⟨2024, 1, 2, 12, 0, 0⟩

def tagTech : FeedTag := ⟨"Tech"⟩

def entryNYE : FeedEntry :=
  { title := "NYE article", link := "http://example.com/a",
    published := "Sun, 31 Dec 2023 23:30:00 GMT",
    published_parsed := some dtNYE, tags := [tagTech] }

def envFull : Env :=
  { openai_api_key := some "sk-key", rss_feed_url := some "http://feed.example/rss",
    rss_feed_summary_length := some "Medium", smtp_server := some "smtp.example.com",
    smtp_port := some "465", smtp_user := some "user", smtp_password := some "pw",
    sender_email := some "from@example.com", recipient_email := some "to@example.com" }

def stubArticle : String → String := fun _ => "article text"

def stubLLM : LLMRequest → String := fun _ => "  a summary  "

/-- envFull with the API key unset. -/
def envNoApi : Env := { envFull with openai_api_key := none }

/-- envFull with the feed URL unset. -/
def envNoFeedCfg : Env := { envFull with rss_feed_url := none }

/-- envFull with the summary-length preset unset. -/
def envNoLen : Env := { envFull with rss_feed_summary_length := none }

/-- envFull with the SMTP server unset (mail settings incomplete). -/
def envNoMail : Env := { envFull with smtp_server := none }

/-- envFull with a non-numeric SMTP port string. -/
def envBadPort : Env := { envFull with smtp_port := some "abc" }

/-- A feed oracle returning one qualifying entry. -/
def stubFeed1 : String → List FeedEntry := fun _ => [entryNYE]

/-- A qualifying-date entry carrying no category tags. -/
def entryNoTags : FeedEntry := { entryNYE with title := "untagged", tags := [] }

/-- The message send_email composes from the environment and the summary
list (body, fixed subject, From, To). -/
def composedMsg (env : Env) (complete_summary : List ArticleSummary) : EmailMsg :=
  { body := emailBody complete_summary, subject := mailSubject,
    sender := env.sender_email.getD "", recipient := env.recipient_email.getD "" }


-- Sanity checks of the calendar model.
example : daysFromCivil 1970 1 1 = 0 := by decide
example : civilFromDays 0 = { year := 1970, month := 1, day := 1 } := by decide
example : civilFromDays 19723 = { year := 2024, month := 1, day := 1 } := by decide
example : daysFromCivil 2024 1 1 = 19723 := by decide
-- 2024-03-31 was a Sunday.
example : dayOfWeek (daysFromCivil 2024 3 31) = 0 := by decide
-- Winter: 2024-01-15 12:00 UTC is not DST; summer: 2024-07-15 12:00 UTC is.
example : isDstAms (epochOfUTC ⟨2024, 1, 15, 12, 0, 0⟩) = false := by decide
example : isDstAms (epochOfUTC ⟨2024, 7, 15, 12, 0, 0⟩) = true := by decide
-- DST boundary 2024: transition at 01:00 UTC on 2024-03-31.
example : isDstAms (epochOfUTC ⟨2024, 3, 31, 0, 59, 59⟩) = false := by decide
example : isDstAms (epochOfUTC ⟨2024, 3, 31, 1, 0, 0⟩) = true := by decide
-- A 23:30 UTC timestamp lands on the next Amsterdam calendar date.
example : amsDateOfEpoch (epochOfUTC ⟨2023, 12, 31, 23, 30, 0⟩)
    = { year := 2024, month := 1, day := 1 } := by decide
example : utcDateOfEpoch (epochOfUTC ⟨2023, 12, 31, 23, 30, 0⟩)
    = { year := 2023, month := 12, day := 31 } := by decide

example : yesterdayAms nowJan2 = { year := 2024, month := 1, day := 1 } := by decide

example : read_rss_feed nowJan2 [entryNYE] = .ok [entryNYE] := by decide

example :
    (main envFull (fun _ => [entryNYE]) stubArticle stubLLM nowJan2).result
      = .ok (some
          { body := emailBody [⟨"NYE article", "Sun, 31 Dec 2023 23:30:00 GMT",
              "http://example.com/a", "a summary"⟩],
            subject := mailSubject, sender := "from@example.com",
            recipient := "to@example.com" }) := by decide

example :
    main envFull (fun _ => []) stubArticle stubLLM nowJan2
      = { printed := [], calls := [.feedFetch "http://feed.example/rss"],
          result := .error .unboundLocal } := by decide

/-! ## Properties of the filter -/

theorem passesFilter_iff (yd : Date) (e : FeedEntry) :
    passesFilter yd e = true ↔
      ∃ dt, e.published_parsed = some dt ∧ amsDateOfEpoch (epochOfUTC dt) = yd ∧
        ∃ t ts, e.tags = t :: ts ∧ t.term ≠ "Software" := by
  rcases hp : e.published_parsed with _ | dt
  · simp [passesFilter, hp]
  · rcases ht : e.tags with _ | ⟨t, ts⟩
    · simp [passesFilter, hp, ht]
    · constructor
      · intro h
        simp only [passesFilter, hp, ht, Bool.and_eq_true, decide_eq_true_eq] at h
        exact ⟨dt, rfl, h.1, t, ts, rfl, h.2⟩
      · rintro ⟨dt2, hdt2, hd2, t2, ts2, ht2, hs2⟩
        cases hdt2
        cases ht2
        simp only [passesFilter, hp, ht, Bool.and_eq_true, decide_eq_true_eq]
        exact ⟨hd2, hs2⟩

theorem filterEntries_mem {yd : Date} {es res : List FeedEntry}
    (h : filterEntries yd es = .ok res) (e : FeedEntry) :
    e ∈ res ↔ e ∈ es ∧ passesFilter yd e = true := by
  induction es generalizing res with
  | nil =>
    simp only [filterEntries, Except.ok.injEq] at h
    subst h
    simp
  | cons a as ih =>
    simp only [filterEntries] at h
    rcases hp : a.published_parsed with _ | dt
    · simp only [hp] at h
      have hpa : passesFilter yd a = false := by simp [passesFilter, hp]
      rw [ih h]
      constructor
      · rintro ⟨hm, hpass⟩
        exact ⟨List.mem_cons_of_mem _ hm, hpass⟩
      · rintro ⟨hm, hpass⟩
        rcases List.mem_cons.mp hm with rfl | hm
        · rw [hpa] at hpass; cases hpass
        · exact ⟨hm, hpass⟩
    · simp only [hp] at h
      by_cases hd : amsDateOfEpoch (epochOfUTC dt) = yd
      · rw [if_pos hd] at h
        rcases ht : a.tags with _ | ⟨t, ts⟩
        · simp only [ht] at h
          exact Except.noConfusion h
        · simp only [ht] at h
          by_cases hs : t.term = "Software"
          · rw [if_pos hs] at h
            have hpa : passesFilter yd a = false := by
              simp [passesFilter, hp, ht, hs]
            rw [ih h]
            constructor
            · rintro ⟨hm, hpass⟩
              exact ⟨List.mem_cons_of_mem _ hm, hpass⟩
            · rintro ⟨hm, hpass⟩
              rcases List.mem_cons.mp hm with rfl | hm
              · rw [hpa] at hpass; cases hpass
              · exact ⟨hm, hpass⟩
          · rw [if_neg hs] at h
            rcases hrec : filterEntries yd as with err | rest
            · simp only [hrec] at h
              exact Except.noConfusion h
            · simp only [hrec, Except.ok.injEq] at h
              subst h
              have hpa : passesFilter yd a = true := by
                simp [passesFilter, hp, ht, hd, hs]
              constructor
              · intro hm
                rcases List.mem_cons.mp hm with rfl | hm
                · exact ⟨List.mem_cons_self _ _, hpa⟩
                · obtain ⟨hm2, hpass⟩ := (ih hrec).mp hm
                  exact ⟨List.mem_cons_of_mem _ hm2, hpass⟩
              · rintro ⟨hm, hpass⟩
                rcases List.mem_cons.mp hm with rfl | hm
                · exact List.mem_cons_self _ _
                · exact List.mem_cons_of_mem _ ((ih hrec).mpr ⟨hm, hpass⟩)
      · rw [if_neg hd] at h
        have hpa : passesFilter yd a = false := by simp [passesFilter, hp, hd]
        rw [ih h]
        constructor
        · rintro ⟨hm, hpass⟩
          exact ⟨List.mem_cons_of_mem _ hm, hpass⟩
        · rintro ⟨hm, hpass⟩
          rcases List.mem_cons.mp hm with rfl | hm
          · rw [hpa] at hpass; cases hpass
          · exact ⟨hm, hpass⟩

theorem filterEntries_error {yd : Date} {es : List FeedEntry} (e : FeedEntry)
    (hm : e ∈ es) (dt : DateTime) (hdt : e.published_parsed = some dt)
    (hd : amsDateOfEpoch (epochOfUTC dt) = yd) (ht : e.tags = []) :
    filterEntries yd es = .error .attributeError := by
  induction es with
  | nil => cases hm
  | cons a as ih =>
    rcases List.mem_cons.mp hm with rfl | hm2
    · simp only [filterEntries, hdt, ht]
      rw [if_pos hd]
    · have tail := ih hm2
      simp only [filterEntries]
      rcases hp : a.published_parsed with _ | dt2
      · simp only [hp]
        exact tail
      · simp only [hp]
        by_cases hd2 : amsDateOfEpoch (epochOfUTC dt2) = yd
        · rw [if_pos hd2]
          rcases ht2 : a.tags with _ | ⟨t, ts⟩
          · rfl
          · simp [tail]
        · rw [if_neg hd2]; exact tail

/-! ## Reduction lemmas for the pipeline -/

theorem main_no_api_key (env : Env) (fF : String → List FeedEntry)
    (fA : String → String) (llm : LLMRequest → String) (now : Int)
    (h : truthy env.openai_api_key = false) :
    main env fF fA llm now = ⟨[apiKeyMsg], [], .ok none⟩ := by
  simp [main, h]

theorem load_feeds_info_missing (env : Env)
    (h : (truthy env.rss_feed_url && truthy env.rss_feed_summary_length) = false) :
    load_feeds_info env = (none, [feedCfgMsg]) := by
  simp [load_feeds_info, h]

theorem load_feeds_info_present (env : Env)
    (h : (truthy env.rss_feed_url && truthy env.rss_feed_summary_length) = true) :
    load_feeds_info env
      = (some (env.rss_feed_url.getD "", env.rss_feed_summary_length.getD ""), []) := by
  simp [load_feeds_info, h]

theorem main_no_feed_cfg (env : Env) (fF : String → List FeedEntry)
    (fA : String → String) (llm : LLMRequest → String) (now : Int)
    (hapi : truthy env.openai_api_key = true)
    (h : (truthy env.rss_feed_url && truthy env.rss_feed_summary_length) = false) :
    main env fF fA llm now = ⟨[feedCfgMsg], [], .ok none⟩ := by
  simp [main, hapi, load_feeds_info_missing env h]

theorem main_filter_error (env : Env) (fF : String → List FeedEntry)
    (fA : String → String) (llm : LLMRequest → String) (now : Int) (err : PyError)
    (hapi : truthy env.openai_api_key = true)
    (hcfg : (truthy env.rss_feed_url && truthy env.rss_feed_summary_length) = true)
    (herr : read_rss_feed now (fF (env.rss_feed_url.getD "")) = .error err) :
    main env fF fA llm now
      = ⟨[], [.feedFetch (env.rss_feed_url.getD "")], .error err⟩ := by
  simp [main, hapi, load_feeds_info_present env hcfg, herr]

theorem main_empty_feed (env : Env) (fF : String → List FeedEntry)
    (fA : String → String) (llm : LLMRequest → String) (now : Int)
    (hapi : truthy env.openai_api_key = true)
    (hcfg : (truthy env.rss_feed_url && truthy env.rss_feed_summary_length) = true)
    (hok : read_rss_feed now (fF (env.rss_feed_url.getD "")) = .ok []) :
    main env fF fA llm now
      = ⟨(get_summary_length (env.rss_feed_summary_length.getD "")).2,
         [.feedFetch (env.rss_feed_url.getD "")], .error .unboundLocal⟩ := by
  simp [main, hapi, load_feeds_info_present env hcfg, hok]

theorem main_nonempty_feed (env : Env) (fF : String → List FeedEntry)
    (fA : String → String) (llm : LLMRequest → String) (now : Int)
    (f : FeedEntry) (fs : List FeedEntry)
    (hapi : truthy env.openai_api_key = true)
    (hcfg : (truthy env.rss_feed_url && truthy env.rss_feed_summary_length) = true)
    (hok : read_rss_feed now (fF (env.rss_feed_url.getD "")) = .ok (f :: fs)) :
    main env fF fA llm now
      = ⟨(get_summary_length (env.rss_feed_summary_length.getD "")).2
            ++ (send_email env (pipelineSummaries fA llm
                  (get_summary_length (env.rss_feed_summary_length.getD "")).1 (f :: fs))).printed,
         .feedFetch (env.rss_feed_url.getD "")
            :: (pipelineCalls fA llm
                  (get_summary_length (env.rss_feed_summary_length.getD "")).1 (f :: fs)
                ++ (send_email env (pipelineSummaries fA llm
                      (get_summary_length (env.rss_feed_summary_length.getD "")).1 (f :: fs))).calls),
         (send_email env (pipelineSummaries fA llm
              (get_summary_length (env.rss_feed_summary_length.getD "")).1 (f :: fs))).result⟩ := by
  simp [main, hapi, load_feeds_info_present env hcfg, hok]

theorem send_email_missing (env : Env) (ss : List ArticleSummary)
    (h : mailCfgOk env = false) :
    send_email env ss = ⟨[mailCfgMsg], none, [], .ok none⟩ := by
  simp [send_email, h]

theorem send_email_bad_port (env : Env) (ss : List ArticleSummary)
    (h : mailCfgOk env = true) (hp : pyInt (env.smtp_port.getD "") = none) :
    send_email env ss = ⟨[], some (composedMsg env ss), [], .error .valueError⟩ := by
  simp [send_email, h, hp, composedMsg]

theorem send_email_sends (env : Env) (ss : List ArticleSummary) (p : Int)
    (h : mailCfgOk env = true) (hp : pyInt (env.smtp_port.getD "") = some p) :
    send_email env ss
      = ⟨[], some (composedMsg env ss), [.mailSend (composedMsg env ss)],
         .ok (some (composedMsg env ss))⟩ := by
  simp [send_email, h, hp, composedMsg]

theorem send_email_calls_cases (env : Env) (ss : List ArticleSummary) :
    (send_email env ss).calls = []
      ∨ (send_email env ss).calls = [.mailSend (composedMsg env ss)] := by
  cases h : mailCfgOk env with
  | false => rw [send_email_missing env ss h]; left; rfl
  | true =>
    rcases hp : pyInt (env.smtp_port.getD "") with _ | p
    · rw [send_email_bad_port env ss h hp]; left; rfl
    · rw [send_email_sends env ss p h hp]; right; rfl

theorem pipelineCalls_cons (fA : String → String) (llm : LLMRequest → String)
    (n : Nat) (e : FeedEntry) (feed : List FeedEntry) :
    pipelineCalls fA llm n (e :: feed)
      = .articleFetch e.link :: .modelCall (mkRequest (fA e.link) n)
          :: pipelineCalls fA llm n feed := by
  simp [pipelineCalls, summarizeEntry]

theorem no_mailSend_pipelineCalls (fA : String → String) (llm : LLMRequest → String)
    (n : Nat) (feed : List FeedEntry) (m : EmailMsg) :
    NetCall.mailSend m ∉ pipelineCalls fA llm n feed := by
  induction feed with
  | nil => simp [pipelineCalls]
  | cons e fs ih => simp [pipelineCalls_cons, ih]

theorem modelCall_mem_pipelineCalls (fA : String → String) (llm : LLMRequest → String)
    (n : Nat) (feed : List FeedEntry) (req : LLMRequest) :
    NetCall.modelCall req ∈ pipelineCalls fA llm n feed ↔
      ∃ e ∈ feed, req = mkRequest (fA e.link) n := by
  induction feed with
  | nil => simp [pipelineCalls]
  | cons e fs ih =>
    simp only [pipelineCalls_cons, List.mem_cons, ih]
    constructor
    · rintro (h | h | ⟨e2, hm, rfl⟩)
      · exact absurd h (by simp)
      · injection h with h
        exact ⟨e, Or.inl rfl, h⟩
      · exact ⟨e2, Or.inr hm, rfl⟩
    · rintro ⟨e2, hm | hm, rfl⟩
      · subst hm; exact Or.inr (Or.inl rfl)
      · exact Or.inr (Or.inr ⟨e2, hm, rfl⟩)

/-! ## Claims -/

/-- C1: read_rss_feed includes an entry in the filtered sequence (whenever
the filter run completes) if and only if the entry has a parsed publish
timestamp whose date, converted from UTC to Europe/Amsterdam, equals the
reference yesterday (now in that timezone minus one day) and its first
category tag term is not the literal string Software; entries without a
parsed publish timestamp are excluded.  Classification uses the
timezone-converted date amsDateOfEpoch, not the original UTC date. -/
theorem C1_filter_membership (now : Int) (entries res : List FeedEntry)
    (h : read_rss_feed now entries = .ok res) (e : FeedEntry) :
    e ∈ res ↔
      e ∈ entries ∧ ∃ dt, e.published_parsed = some dt ∧
        amsDateOfEpoch (epochOfUTC dt) = yesterdayAms now ∧
        ∃ t ts, e.tags = t :: ts ∧ t.term ≠ "Software" := by
  rw [read_rss_feed] at h
  rw [filterEntries_mem h e, passesFilter_iff]

/-- Witness for C1: an entry stamped 23:30 UTC on 2023-12-31 falls on
2024-01-01 in Amsterdam; with now on 2024-01-02 it is included, although
its UTC date (2023-12-31) is not the reference yesterday — the converted
date decides. -/
theorem C1_filter_membership_witness :
    utcDateOfEpoch (epochOfUTC dtNYE) ≠ yesterdayAms nowJan2 ∧
    amsDateOfEpoch (epochOfUTC dtNYE) = yesterdayAms nowJan2 ∧
    entryNYE ∈ [entryNYE] :=
  ⟨by decide, by decide,
    (C1_filter_membership nowJan2 [entryNYE] [entryNYE] (by decide) entryNYE).mpr
      ⟨by decide, dtNYE, rfl, by decide, tagTech, [], rfl, by decide⟩⟩

/-- C2 (code bug): with every configuration value present and a feed with
zero qualifying entries, the loop in main never runs, complete_summary is
never created, and the call send_email(complete_summary) raises
UnboundLocalError — the run aborts instead of assembling and sending an
empty digest as the specification describes. -/
theorem C2_empty_run_raises :
    main envFull (fun _ => []) stubArticle stubLLM nowJan2
      = { printed := [], calls := [.feedFetch "http://feed.example/rss"],
          result := .error .unboundLocal } := by decide

/-- C6: every ArticleSummary produced by the summarization loop derives
from an entry of the fetched feed that passed the date-and-tag filter; no
summary exists for an entry excluded by date, by tag, or for lacking a
parsed timestamp. -/
theorem C6_summary_invariant (fA : String → String) (llm : LLMRequest → String)
    (n : Nat) (now : Int) (entries feed : List FeedEntry)
    (h : read_rss_feed now entries = .ok feed) :
    ∀ s ∈ pipelineSummaries fA llm n feed,
      ∃ e, e ∈ entries ∧ passesFilter (yesterdayAms now) e = true ∧
        s = (summarizeEntry fA llm n e).1 := by
  intro s hs
  rw [read_rss_feed] at h
  simp only [pipelineSummaries, List.mem_map] at hs
  obtain ⟨e, he, rfl⟩ := hs
  obtain ⟨hm, hpass⟩ := (filterEntries_mem h e).mp he
  exact ⟨e, hm, hpass, rfl⟩

/-- Witness for C6 at a concrete run: the single produced summary comes
from the single feed entry, which passes the filter. -/
theorem C6_summary_invariant_witness :
    ∃ e, e ∈ [entryNYE] ∧ passesFilter (yesterdayAms nowJan2) e = true ∧
      (summarizeEntry stubArticle stubLLM 1000 entryNYE).1
        = (summarizeEntry stubArticle stubLLM 1000 e).1 :=
  C6_summary_invariant stubArticle stubLLM 1000 nowJan2 [entryNYE] [entryNYE]
    (by decide) ((summarizeEntry stubArticle stubLLM 1000 entryNYE).1)
    (by simp [pipelineSummaries])

/-- C9: an entry whose parsed publish date equals the reference yesterday
but which has no category tags makes the filter read tags[0], so the
whole filtering step raises (attribute/index error) instead of including
or excluding the entry. -/
theorem C9_missing_tags_error (now : Int) (entries : List FeedEntry) (e : FeedEntry)
    (hm : e ∈ entries) (dt : DateTime) (hdt : e.published_parsed = some dt)
    (hd : amsDateOfEpoch (epochOfUTC dt) = yesterdayAms now) (ht : e.tags = []) :
    read_rss_feed now entries = .error .attributeError := by
  rw [read_rss_feed]
  exact filterEntries_error e hm dt hdt hd ht

/-- Witness for C9: a tag-less entry dated yesterday makes read_rss_feed
raise. -/
theorem C9_missing_tags_error_witness :
    read_rss_feed nowJan2 [entryNoTags] = .error .attributeError :=
  C9_missing_tags_error nowJan2 [entryNoTags] entryNoTags (by decide) dtNYE rfl
    (by decide) rfl

/-- C10: when all six mail settings are present (any non-empty port
string passes the truthiness check) but the port is not a decimal integer
string, send_email composes the message and then raises ValueError at
int(smtp_port) — at connection time, before any send —, so nothing is
sent and the run aborts. -/
theorem C10_bad_port_aborts (env : Env) (ss : List ArticleSummary)
    (hcfg : mailCfgOk env = true) (hbad : pyInt (env.smtp_port.getD "") = none) :
    send_email env ss
      = { printed := [], composed := some (composedMsg env ss), calls := [],
          result := .error .valueError } :=
  send_email_bad_port env ss hcfg hbad

/-- Witness for C10: port string abc passes the presence check and fails
conversion; the message is composed but never sent. -/
theorem C10_bad_port_aborts_witness :
    send_email envBadPort []
      = { printed := [], composed := some (composedMsg envBadPort []), calls := [],
          result := .error .valueError } :=
  C10_bad_port_aborts envBadPort [] (by decide) (by decide)

/-- Counterexample to C3 as stated: with the mail settings absent but
everything else present, the run does abort with the mail message and a
clean return, yet the feed fetch (a network call) has already been made —
the abort is not before every network call. -/
theorem C3_counterexample :
    (main envNoMail stubFeed1 stubArticle stubLLM nowJan2).printed = [mailCfgMsg] ∧
    (main envNoMail stubFeed1 stubArticle stubLLM nowJan2).result = .ok none ∧
    NetCall.feedFetch "http://feed.example/rss"
      ∈ (main envNoMail stubFeed1 stubArticle stubLLM nowJan2).calls :=
  ⟨rfl, rfl, List.mem_cons_self _ _⟩

/-- C3 (amended): a missing API key or missing feed URL / length preset
aborts the run with its category message before any network call; missing
mail settings abort with the mail message by a clean return only at the
sending stage — after the feed fetch (and the per-entry calls), with only
the mail send avoided. -/
theorem C3_config_abort (env : Env) (fF : String → List FeedEntry)
    (fA : String → String) (llm : LLMRequest → String) (now : Int) :
    (truthy env.openai_api_key = false →
      main env fF fA llm now = ⟨[apiKeyMsg], [], .ok none⟩) ∧
    (truthy env.openai_api_key = true →
      (truthy env.rss_feed_url && truthy env.rss_feed_summary_length) = false →
      main env fF fA llm now = ⟨[feedCfgMsg], [], .ok none⟩) ∧
    (∀ f : FeedEntry, ∀ fs : List FeedEntry,
      truthy env.openai_api_key = true →
      (truthy env.rss_feed_url && truthy env.rss_feed_summary_length) = true →
      read_rss_feed now (fF (env.rss_feed_url.getD "")) = .ok (f :: fs) →
      mailCfgOk env = false →
      (main env fF fA llm now).result = .ok none ∧
      mailCfgMsg ∈ (main env fF fA llm now).printed ∧
      NetCall.feedFetch (env.rss_feed_url.getD "") ∈ (main env fF fA llm now).calls ∧
      ∀ m : EmailMsg, NetCall.mailSend m ∉ (main env fF fA llm now).calls) := by
  refine ⟨fun h => main_no_api_key env fF fA llm now h,
          fun h1 h2 => main_no_feed_cfg env fF fA llm now h1 h2,
          fun f fs h1 h2 h3 h4 => ?_⟩
  rw [main_nonempty_feed env fF fA llm now f fs h1 h2 h3,
      send_email_missing env _ h4]
  refine ⟨rfl, by simp, by simp, fun m => ?_⟩
  simp only [List.mem_cons, List.mem_append]
  rintro (h | h | h)
  · exact NetCall.noConfusion h
  · exact no_mailSend_pipelineCalls fA llm _ (f :: fs) m h
  · simp at h

/-- Witness for C3 (amended) at concrete inputs: each missing group at a
concrete environment, including the late mail-settings abort after the
feed fetch. -/
theorem C3_config_abort_witness :
    main envNoApi stubFeed1 stubArticle stubLLM nowJan2 = ⟨[apiKeyMsg], [], .ok none⟩ ∧
    main envNoFeedCfg stubFeed1 stubArticle stubLLM nowJan2 = ⟨[feedCfgMsg], [], .ok none⟩ ∧
    (main envNoMail stubFeed1 stubArticle stubLLM nowJan2).result = .ok none ∧
    NetCall.feedFetch "http://feed.example/rss"
      ∈ (main envNoMail stubFeed1 stubArticle stubLLM nowJan2).calls :=
  ⟨(C3_config_abort envNoApi stubFeed1 stubArticle stubLLM nowJan2).1 (by decide),
   (C3_config_abort envNoFeedCfg stubFeed1 stubArticle stubLLM nowJan2).2.1
     (by decide) (by decide),
   ((C3_config_abort envNoMail stubFeed1 stubArticle stubLLM nowJan2).2.2 entryNYE []
     (by decide) (by decide) (by decide) (by decide)).1,
   ((C3_config_abort envNoMail stubFeed1 stubArticle stubLLM nowJan2).2.2 entryNYE []
     (by decide) (by decide) (by decide) (by decide)).2.2.1⟩

/-- C4: get_summary_length maps Short to 500, Medium to 1000, Long to
1500, and any other string to 1000 while printing the warning; an unset or
empty preset never reaches get_summary_length — load_feeds_info reports
the configuration message and main returns with no fallback substituted. -/
theorem C4_summary_length_mapping :
    get_summary_length "Short" = (500, []) ∧
    get_summary_length "Medium" = (1000, []) ∧
    get_summary_length "Long" = (1500, []) ∧
    (∀ s : String, s ≠ "Short" → s ≠ "Medium" → s ≠ "Long" →
      get_summary_length s = (1000, [lenWarnMsg])) ∧
    (∀ env : Env, ∀ fF : String → List FeedEntry, ∀ fA : String → String,
      ∀ llm : LLMRequest → String, ∀ now : Int,
      truthy env.openai_api_key = true →
      truthy env.rss_feed_summary_length = false →
      main env fF fA llm now = ⟨[feedCfgMsg], [], .ok none⟩) := by
  refine ⟨rfl, rfl, rfl, ?_, ?_⟩
  · intro s h1 h2 h3
    simp [get_summary_length, h1, h2, h3]
  · intro env fF fA llm now h1 h2
    exact main_no_feed_cfg env fF fA llm now h1 (by simp [h2])

/-- Witness for C4: an unrecognized preset falls back to 1000 with the
warning; an absent preset aborts the run with the configuration message. -/
theorem C4_summary_length_mapping_witness :
    get_summary_length "Tiny" = (1000, [lenWarnMsg]) ∧
    main envNoLen stubFeed1 stubArticle stubLLM nowJan2 = ⟨[feedCfgMsg], [], .ok none⟩ :=
  ⟨C4_summary_length_mapping.2.2.2.1 "Tiny" (by decide) (by decide) (by decide),
   C4_summary_length_mapping.2.2.2.2 envNoLen stubFeed1 stubArticle stubLLM nowJan2
     (by decide) (by decide)⟩

/-- Counterexample to C5 as stated: with zero filtered entries (N = 0) no
document is sent at all — the run raises UnboundLocalError — so the sent
document cannot contain exactly N = 0 blocks. -/
theorem C5_counterexample :
    (main envFull (fun _ => []) stubArticle stubLLM nowJan2).result
      ≠ .ok (some (composedMsg envFull [])) ∧
    (main envFull (fun _ => []) stubArticle stubLLM nowJan2).result
      = .error .unboundLocal :=
  ⟨by decide, by decide⟩

/-- C5 (amended): for a nonempty filtered sequence (N ≥ 1), with stubbed
article, model and transport collaborators, the sent document body is
exactly the concatenation, in feed order, of one title/summary/link block
per entry, the i-th block built from the i-th entry; for N = 0 the run
instead raises and nothing is sent. -/
theorem C5_digest_roundtrip (env : Env) (fF : String → List FeedEntry)
    (fA : String → String) (llm : LLMRequest → String) (now : Int)
    (f : FeedEntry) (fs : List FeedEntry) (p : Int)
    (hapi : truthy env.openai_api_key = true)
    (hcfg : (truthy env.rss_feed_url && truthy env.rss_feed_summary_length) = true)
    (hfeed : read_rss_feed now (fF (env.rss_feed_url.getD "")) = .ok (f :: fs))
    (hmail : mailCfgOk env = true)
    (hport : pyInt (env.smtp_port.getD "") = some p) :
    (main env fF fA llm now).result
      = .ok (some (composedMsg env (pipelineSummaries fA llm
          (get_summary_length (env.rss_feed_summary_length.getD "")).1 (f :: fs)))) ∧
    NetCall.mailSend (composedMsg env (pipelineSummaries fA llm
          (get_summary_length (env.rss_feed_summary_length.getD "")).1 (f :: fs)))
      ∈ (main env fF fA llm now).calls ∧
    (composedMsg env (pipelineSummaries fA llm
          (get_summary_length (env.rss_feed_summary_length.getD "")).1 (f :: fs))).body
      = String.join ((pipelineSummaries fA llm
          (get_summary_length (env.rss_feed_summary_length.getD "")).1 (f :: fs)).map formatItem) ∧
    (pipelineSummaries fA llm
        (get_summary_length (env.rss_feed_summary_length.getD "")).1 (f :: fs)).length
      = (f :: fs).length ∧
    ∀ i : Nat,
      (pipelineSummaries fA llm
          (get_summary_length (env.rss_feed_summary_length.getD "")).1 (f :: fs))[i]?
        = ((f :: fs)[i]?).map (fun e =>
            (summarizeEntry fA llm
              (get_summary_length (env.rss_feed_summary_length.getD "")).1 e).1) := by
  rw [main_nonempty_feed env fF fA llm now f fs hapi hcfg hfeed,
      send_email_sends env _ p hmail hport]
  refine ⟨rfl, by simp, rfl, by simp [pipelineSummaries], fun i => ?_⟩
  simp only [pipelineSummaries]
  exact List.getElem?_map ..

/-- Witness for C5 (amended) at a concrete one-entry run. -/
theorem C5_digest_roundtrip_witness :
    (main envFull stubFeed1 stubArticle stubLLM nowJan2).result
      = .ok (some (composedMsg envFull
          (pipelineSummaries stubArticle stubLLM 1000 [entryNYE]))) ∧
    (pipelineSummaries stubArticle stubLLM 1000 [entryNYE]).length
      = [entryNYE].length :=
  ⟨(C5_digest_roundtrip envFull stubFeed1 stubArticle stubLLM nowJan2 entryNYE [] 465
      (by decide) (by decide) (by decide) (by decide) (by decide)).1,
   (C5_digest_roundtrip envFull stubFeed1 stubArticle stubLLM nowJan2 entryNYE [] 465
      (by decide) (by decide) (by decide) (by decide) (by decide)).2.2.2.1⟩

/-- C7: every chat-completions request made during a run asks for at most
the budget derived from the configured preset, carries temperature 0.7,
and the stored summary of the entry it was made for is the returned text
with surrounding whitespace stripped. -/
theorem C7_request_parameters (env : Env) (fF : String → List FeedEntry)
    (fA : String → String) (llm : LLMRequest → String) (now : Int)
    (hapi : truthy env.openai_api_key = true)
    (hcfg : (truthy env.rss_feed_url && truthy env.rss_feed_summary_length) = true) :
    ∀ req : LLMRequest, NetCall.modelCall req ∈ (main env fF fA llm now).calls →
      req.max_tokens = (get_summary_length (env.rss_feed_summary_length.getD "")).1 ∧
      req.temperature = 7 / 10 ∧
      ∃ e : FeedEntry,
        req = mkRequest (fA e.link)
          (get_summary_length (env.rss_feed_summary_length.getD "")).1 ∧
        (summarizeEntry fA llm
            (get_summary_length (env.rss_feed_summary_length.getD "")).1 e).1.summary
          = pyStrip (llm req) := by
  intro req hreq
  rcases hfeed : read_rss_feed now (fF (env.rss_feed_url.getD "")) with err | feed
  · rw [main_filter_error env fF fA llm now err hapi hcfg hfeed] at hreq
    simp at hreq
  · rcases feed with _ | ⟨f, fs⟩
    · rw [main_empty_feed env fF fA llm now hapi hcfg hfeed] at hreq
      simp at hreq
    · rw [main_nonempty_feed env fF fA llm now f fs hapi hcfg hfeed] at hreq
      simp only [List.mem_cons, List.mem_append] at hreq
      rcases hreq with h | h | h
      · exact absurd h (by simp)
      · obtain ⟨e, _, rfl⟩ :=
          (modelCall_mem_pipelineCalls fA llm _ (f :: fs) req).mp h
        exact ⟨rfl, rfl, e, rfl, rfl⟩
      · rcases send_email_calls_cases env (pipelineSummaries fA llm
            (get_summary_length (env.rss_feed_summary_length.getD "")).1 (f :: fs))
          with hc | hc
        · rw [hc] at h; simp at h
        · rw [hc] at h; simp at h

/-- Witness for C7 at a concrete run: the one request of the run has
budget 1000 (Medium), temperature 0.7, and the stored summary is the
stripped model output. -/
theorem C7_request_parameters_witness :
    (mkRequest "article text" 1000).max_tokens
        = (get_summary_length (envFull.rss_feed_summary_length.getD "")).1 ∧
    (mkRequest "article text" 1000).temperature = 7 / 10 ∧
    ∃ e : FeedEntry,
      mkRequest "article text" 1000
        = mkRequest (stubArticle e.link)
            (get_summary_length (envFull.rss_feed_summary_length.getD "")).1 ∧
      (summarizeEntry stubArticle stubLLM
          (get_summary_length (envFull.rss_feed_summary_length.getD "")).1 e).1.summary
        = pyStrip (stubLLM (mkRequest "article text" 1000)) :=
  C7_request_parameters envFull stubFeed1 stubArticle stubLLM nowJan2
    (by decide) (by decide) (mkRequest "article text" 1000)
    (by
      have hcalls : (main envFull stubFeed1 stubArticle stubLLM nowJan2).calls
          = [.feedFetch "http://feed.example/rss", .articleFetch "http://example.com/a",
             .modelCall (mkRequest "article text" 1000),
             .mailSend (composedMsg envFull
               (pipelineSummaries stubArticle stubLLM 1000 [entryNYE]))] := rfl
      rw [hcalls]
      simp)

/-- C8: the three missing-configuration groups produce three pairwise
distinct user-facing messages, and in each case the run stops by
returning normally (no exception is propagated). -/
theorem C8_distinct_config_messages (env : Env) (fF : String → List FeedEntry)
    (fA : String → String) (llm : LLMRequest → String) (now : Int)
    (ss : List ArticleSummary) :
    apiKeyMsg ≠ feedCfgMsg ∧ apiKeyMsg ≠ mailCfgMsg ∧ feedCfgMsg ≠ mailCfgMsg ∧
    (truthy env.openai_api_key = false →
      main env fF fA llm now = ⟨[apiKeyMsg], [], .ok none⟩) ∧
    (truthy env.openai_api_key = true →
      (truthy env.rss_feed_url && truthy env.rss_feed_summary_length) = false →
      main env fF fA llm now = ⟨[feedCfgMsg], [], .ok none⟩) ∧
    (mailCfgOk env = false →
      send_email env ss = ⟨[mailCfgMsg], none, [], .ok none⟩) :=
  ⟨by decide, by decide, by decide,
   fun h => main_no_api_key env fF fA llm now h,
   fun h1 h2 => main_no_feed_cfg env fF fA llm now h1 h2,
   fun h => send_email_missing env ss h⟩

/-- Witness for C8 at concrete environments, one per missing group. -/
theorem C8_distinct_config_messages_witness :
    main envNoApi stubFeed1 stubArticle stubLLM nowJan2 = ⟨[apiKeyMsg], [], .ok none⟩ ∧
    main envNoFeedCfg stubFeed1 stubArticle stubLLM nowJan2 = ⟨[feedCfgMsg], [], .ok none⟩ ∧
    send_email envNoMail [] = ⟨[mailCfgMsg], none, [], .ok none⟩ :=
  ⟨(C8_distinct_config_messages envNoApi stubFeed1 stubArticle stubLLM nowJan2 []).2.2.2.1
     (by decide),
   (C8_distinct_config_messages envNoFeedCfg stubFeed1 stubArticle stubLLM nowJan2 []).2.2.2.2.1
     (by decide) (by decide),
   (C8_distinct_config_messages envNoMail stubFeed1 stubArticle stubLLM nowJan2 []).2.2.2.2.2
     (by decide)⟩

end RSS
